import Mathlib

/-!
A verification development for the Naver shopping-insight dashboard
(`src/app.py`).  The two non-trivial components are embedded shallowly:

* the data classifier/loader `load_all_data` (filename → special slot or
  (keyword, category) pair, per-file CSV parse that can fail), and
* the TF-IDF keyword ranker `extract_keywords_tfidf`, including a model of
  scikit-learn's `TfidfVectorizer` with its default parameters
  (tokenizer keeping only runs of at least two word characters,
  vocabulary sorted alphabetically and capped at the 1000 most frequent
  terms, smoothed idf `log((1+n)/(1+df))+1`, L2 row normalisation, and the
  `ValueError` raised on an empty vocabulary), and
* the demographics view of Tab 4, whose control flow around the special
  gender/age tables is modelled exactly (including the unguarded
  `special_data['trench_age'].groupby(...)` call).

DataFrame contents are irrelevant to every property below, so tables are an
arbitrary type `α`; a file is a pair of its base name and the outcome of
`pd.read_csv` (`Except ε α`, since a malformed file raises).  Floating
point arithmetic is modelled by exact real arithmetic.
-/

namespace StDash

/-! ### Substring search: Python's `pat in name` -/

/-- Whether `pat` is a prefix of `l` (one alignment of Python's substring
search). -/
def startsList : List Char → List Char → Bool
  | [], _ => true
  | _ :: _, [] => false
  | p :: ps, c :: cs => p == c && startsList ps cs

/-- Whether `pat` occurs as a contiguous substring of `l`; together with
`hasSubstr` this models Python's `pat in s` on strings. -/
def containsList (pat : List Char) : List Char → Bool
  | [] => startsList pat []
  | c :: cs => startsList pat (c :: cs) || containsList pat cs

/-- Python's `pat in s` (substring containment). -/
def hasSubstr (s pat : String) : Bool := containsList pat.data s.data

/-! ### Filename classification (`load_all_data`, app.py lines 30-62) -/

/-- Python's `str.split(sep)` for a one-character separator.  `split`
always returns a non-empty list; the `[]` arm of the inner match is
unreachable. -/
def pySplit (sep : Char) : List Char → List (List Char)
  | [] => [[]]
  | c :: cs =>
    if c = sep then [] :: pySplit sep cs
    else match pySplit sep cs with
      | [] => [[c]]
      | f :: rest => (c :: f) :: rest

/-- `name.split('_')[0]`: the keyword of a generic data file
(app.py lines 49-50). -/
def keywordOf (name : String) : String := ((pySplit '_' name.data).headD []).asString

/-- The three generic category markers, in the priority order of the
`if`/`elif` chain of app.py lines 52-57. -/
inductive Category
  | trend
  | shopping
  | blog
deriving DecidableEq

/-- The category assigned by the `if`/`elif` chain (app.py lines 51-57);
`none` models the sentinel `dtype = ""` surviving the chain. -/
def classifyCategory (name : String) : Option Category :=
  if hasSubstr name "쇼핑트랜드" then some .trend
  else if hasSubstr name "네이버쇼핑" then some .shopping
  else if hasSubstr name "블로그게시물" then some .blog
  else none

/-- Marker for the seasonal fashion-trend special file (app.py line 35). -/
def seasonalMark : String := "절기별_패션트랜드"

/-- Marker for the trench-coat attribute special file (app.py line 38). -/
def attrMark : String := "트렌치코트_세부속성"

/-- Marker for the trench-coat gender special file (app.py line 41). -/
def genderMark : String := "트렌치코트_성별"

/-- Marker for the trench-coat age special file (app.py line 44). -/
def ageMark : String := "트렌치코트_연령별"

/-- Whether the name matches any of the four special markers. -/
def isSpecialName (name : String) : Bool :=
  hasSubstr name seasonalMark || hasSubstr name attrMark ||
    hasSubstr name genderMark || hasSubstr name ageMark

/-! ### The loader state -/

/-- The inner dictionary `main_data[keyword]`: at most the three keys
`trend`, `shopping`, `blog`. -/
structure KeywordData (α : Type) where
  trend : Option α := none
  shopping : Option α := none
  blog : Option α := none
deriving DecidableEq

/-- The `special_data` dictionary with its four fixed slots, all
initially `None` (app.py lines 23-28). -/
structure SpecialData (α : Type) where
  seasonal_trend : Option α := none
  trench_attributes : Option α := none
  trench_gender : Option α := none
  trench_age : Option α := none
deriving DecidableEq

/-- The pair of dictionaries built by `load_all_data`; `main_data` is an
association list in insertion order, mirroring a Python dict. -/
structure LoadState (α : Type) where
  main_data : List (String × KeywordData α) := []
  special_data : SpecialData α := {}
deriving DecidableEq

/-- `main_data[keyword][dtype] = df` for an existing inner dict. -/
def setDtype (d : KeywordData α) : Category → α → KeywordData α
  | .trend, df => { d with trend := some df }
  | .shopping, df => { d with shopping := some df }
  | .blog, df => { d with blog := some df }

/-- `if keyword not in main_data: main_data[keyword] = {}` followed by
`main_data[keyword][dtype] = df` (app.py lines 59-62), on the
association-list representation of the dict. -/
def insertDtype (m : List (String × KeywordData α)) (k : String) (c : Category) (df : α) :
    List (String × KeywordData α) :=
  match m with
  | [] => [(k, setDtype {} c df)]
  | (k', v) :: rest =>
    if k' = k then (k', setDtype v c df) :: rest else (k', v) :: insertDtype rest k c df

/-- One iteration of the `for f in files` loop body after the successful
`pd.read_csv` (app.py lines 34-62): the four special markers are checked
first, each ending the iteration with `continue`; otherwise the generic
keyword/category classification runs. -/
def processFile (st : LoadState α) (name : String) (df : α) : LoadState α :=
  if hasSubstr name seasonalMark then
    { st with special_data := { st.special_data with seasonal_trend := some df } }
  else if hasSubstr name attrMark then
    { st with special_data := { st.special_data with trench_attributes := some df } }
  else if hasSubstr name genderMark then
    { st with special_data := { st.special_data with trench_gender := some df } }
  else if hasSubstr name ageMark then
    { st with special_data := { st.special_data with trench_age := some df } }
  else
    match classifyCategory name with
    | some c => { st with main_data := insertDtype st.main_data (keywordOf name) c df }
    | none => st

/-- The `for f in files` loop.  `pd.read_csv(f)` runs before any
classification (app.py line 32); a parse failure raises and aborts the
whole loop, which `Except` short-circuiting models. -/
def loadLoop (st : LoadState α) : List (String × Except ε α) → Except ε (LoadState α)
  | [] => .ok st
  | (_, .error e) :: _ => .error e
  | (name, .ok df) :: rest => loadLoop (processFile st name df) rest

/-- `load_all_data` (app.py lines 14-64).  A file is its base name
(`os.path.basename`) paired with the outcome of `pd.read_csv`. -/
def load_all_data (files : List (String × Except ε α)) : Except ε (LoadState α) :=
  loadLoop {} files

/-- The spec's invariant on an entry of the keyword map: at least one of
the three sub-tables is populated. -/
def kwNonempty (d : KeywordData α) : Prop :=
  d.trend ≠ none ∨ d.shopping ≠ none ∨ d.blog ≠ none

/-! ### Tab 4: the demographics view (app.py lines 212-252) -/

/-- The render calls the demographics tab can make; chart contents are
irrelevant, only which table feeds which call. -/
inductive ViewItem (α : Type)
  | subheaderT (s : String)
  | pieChart (t : α)
  | barChart (t : α)
  | tableView (t : α)
  | infoMsg (s : String)
deriving DecidableEq

/-- The exception raised by `None.groupby(...)`: an `AttributeError`. -/
inductive PyError
  | noneHasNoGroupby
deriving DecidableEq

/-- Tab 4 control flow (app.py lines 216-252).  The guard checks
`special_data['trench_gender'] is not None and '트렌치코트' in
selected_keywords`; inside the guarded block `special_data['trench_age']`
is used *without* a check (line 231), so `trench_age = None` there raises
an `AttributeError` (the subheader and the gender pie chart have already
been emitted when it fires, which the error result subsumes). -/
def demographicsTab (sp : SpecialData α) (selected : List String) :
    Except PyError (List (ViewItem α)) :=
  match sp.trench_gender, sp.trench_age, selected.contains "트렌치코트" with
  | some g, some a, true =>
    .ok [.subheaderT "트렌치코트 성별/연령 관심도", .pieChart g, .barChart a,
      .subheaderT "인구통계 데이터 요약", .tableView g, .tableView a]
  | some _, none, true => .error .noneHasNoGroupby
  | _, _, false => .ok [.infoMsg "'트렌치코트'를 선택하면 인구통계 데이터를 확인할 수 있습니다."]
  | none, _, true => .ok [.infoMsg "인구통계 데이터가 준비되지 않았습니다."]

/-! ### The TF-IDF ranker (`extract_keywords_tfidf`, app.py lines 66-77)

`TfidfVectorizer(max_features=1000)` keeps every other parameter at its
default: `lowercase=True`, `token_pattern=r"(?u)\b\w\w+\b"` (maximal runs
of word characters of length at least 2; single-character tokens are
discarded), `stop_words=None`, `smooth_idf=True`, `sublinear_tf=False`,
`norm='l2'`.  `fit_transform` raises `ValueError("empty vocabulary ...")`
when no document yields any token. -/

/-- A word character for the token pattern `\w`: ASCII alphanumerics,
underscore, and (approximating the full Unicode word classes, which cover
all the Hangul appearing in this data) every non-ASCII character. -/
def isWordChar (c : Char) : Bool := c.isAlphanum || c == '_' || decide (128 ≤ c.toNat)

/-- Maximal runs of word characters of the second argument, the first
argument accumulating the (reversed) run in progress. -/
def wordRuns (cur : List Char) : List Char → List (List Char)
  | [] => if cur.isEmpty then [] else [cur.reverse]
  | c :: cs =>
    if isWordChar c then wordRuns (c :: cur) cs
    else if cur.isEmpty then wordRuns [] cs
    else cur.reverse :: wordRuns [] cs

/-- The default `CountVectorizer` analyzer: lowercase, then keep the runs
of word characters of length at least 2. -/
def pyTokens (doc : String) : List String :=
  ((wordRuns [] (doc.data.map Char.toLower)).filter (fun r => 2 ≤ r.length)).map List.asString

/-- All token occurrences of the corpus, in document order. -/
def allTokens (texts : List String) : List String := (texts.map pyTokens).flatten

/-- The distinct terms of the corpus. -/
def rawVocab (texts : List String) : List String := (allTokens texts).dedup

/-- Lexicographic comparison of char lists by code point: Python's `<=`
on strings. -/
def charListLe : List Char → List Char → Bool
  | [], _ => true
  | _ :: _, [] => false
  | a :: as, b :: bs => if a = b then charListLe as bs else decide (a < b)

/-- The vocabulary in scikit-learn's iteration order: sorted
alphabetically (`sorted` is a stable sort; on the duplicate-free
vocabulary any correct sort gives the same list). -/
def sortedVocab (texts : List String) : List String :=
  List.insertionSort (fun a b : String => charListLe a.data b.data = true) (rawVocab texts)

/-- Number of occurrences of term `t` in the whole corpus (the quantity
`max_features` selects by). -/
def termFreq (texts : List String) (t : String) : Nat := (allTokens texts).count t

/-- `get_feature_names_out()`: the sorted vocabulary, capped at the 1000
most frequent terms when it is larger (alphabetical order is preserved
among the kept terms, as `_limit_features` compacts indices in order). -/
def featureNames (texts : List String) : List String :=
  let v := sortedVocab texts
  if v.length ≤ 1000 then v
  else
    let kept :=
      (List.insertionSort (fun a b => termFreq texts b ≤ termFreq texts a) v).take 1000
    v.filter (fun t => kept.contains t)

/-- Raw term frequency of `t` in document `d`. -/
def tfCount (d t : String) : Nat := (pyTokens d).count t

/-- Document frequency: in how many documents `t` occurs. -/
def docFreq (texts : List String) (t : String) : Nat :=
  (texts.filter (fun d => (pyTokens d).contains t)).length

/-- Smoothed inverse document frequency, the scikit-learn default:
`ln((1 + n) / (1 + df)) + 1`. -/
noncomputable def idf (texts : List String) (t : String) : ℝ :=
  Real.log ((1 + (texts.length : ℝ)) / (1 + (docFreq texts t : ℝ))) + 1

/-- The unnormalised entry `tf * idf` of the term-document matrix. -/
noncomputable def rawWeight (texts : List String) (d t : String) : ℝ :=
  (tfCount d t : ℝ) * idf texts t

/-- The L2 norm of document `d`'s row over the capped vocabulary. -/
noncomputable def docNorm (texts : List String) (d : String) : ℝ :=
  Real.sqrt (((featureNames texts).map (fun t => rawWeight texts d t ^ 2)).sum)

/-- The entry of `tfidf_matrix`: the raw weight, L2-normalised per row.
(A zero row has all raw weights zero, so dividing by the zero norm --
`x / 0 = 0` here -- coincides with scikit-learn leaving such a row
unchanged.) -/
noncomputable def tfidfWeight (texts : List String) (d t : String) : ℝ :=
  rawWeight texts d t / docNorm texts d

/-- `tfidf_matrix.sum(axis=0)` at term `t`: the summed weight of the
claimless column loop of app.py lines 72-75. -/
noncomputable def corpusScore (texts : List String) (t : String) : ℝ :=
  (texts.map (fun d => tfidfWeight texts d t)).sum

/-- The ordering of `sorted(data, key=lambda x: x[1], reverse=True)`:
descending by score.  Python's sort is stable, and a stable sort is
unique, so insertion sort below computes the same list. -/
def scoreGE (a b : String × ℝ) : Prop := b.2 ≤ a.2

noncomputable instance : DecidableRel scoreGE := fun a b => Real.decidableLE b.2 a.2

instance : IsTotal (String × ℝ) scoreGE := ⟨fun a b => le_total b.2 a.2⟩

instance : IsTrans (String × ℝ) scoreGE := ⟨fun _ _ _ hab hbc => le_trans hbc hab⟩

/-- The `ValueError` of `fit_transform` on an empty vocabulary. -/
inductive RankError
  | emptyVocabulary
deriving DecidableEq

/-- `extract_keywords_tfidf` (app.py lines 66-77).  The empty-input guard
returns an empty DataFrame; otherwise the vectorizer is fitted (raising
on an empty vocabulary), every term is paired with its summed weight in
feature-name order, the pairs are stably sorted by descending score, and
the first `top_n` (default 20 at both call sites) are returned. -/
noncomputable def extract_keywords_tfidf (texts : List String) (top_n : Nat) :
    Except RankError (List (String × ℝ)) :=
  if texts = [] then .ok []
  else if featureNames texts = [] then .error .emptyVocabulary
  else
    .ok ((List.insertionSort scoreGE
      ((featureNames texts).map (fun t => (t, corpusScore texts t)))).take top_n)

/-! ### Supporting lemmas -/

theorem pySplit_ne_nil (sep : Char) (l : List Char) : pySplit sep l ≠ [] := by
  induction l with
  | nil => simp [pySplit]
  | cons c cs ih =>
    rw [pySplit]
    by_cases h : c = sep
    · simp [h]
    · rw [if_neg h]
      cases hps : pySplit sep cs with
      | nil => exact absurd hps ih
      | cons f rest => simp

/-- The head of Python's `split(sep)` is the prefix before the first
separator. -/
theorem headD_pySplit (sep : Char) (l : List Char) :
    (pySplit sep l).headD [] = l.takeWhile (fun c => c != sep) := by
  induction l with
  | nil => simp [pySplit]
  | cons c cs ih =>
    rw [pySplit, List.takeWhile]
    by_cases h : c = sep
    · subst h; simp
    · rw [if_neg h]
      cases hps : pySplit sep cs with
      | nil => exact absurd hps (pySplit_ne_nil sep cs)
      | cons f rest =>
        have hf : f = cs.takeWhile (fun c => c != sep) := by
          rw [← ih, hps]; rfl
        have hb : (c != sep) = true := bne_iff_ne.mpr h
        simp [hf, hb]

/-- `startsList` recognises exactly the lists beginning with `pat`. -/
theorem startsList_iff (pat : List Char) :
    ∀ l : List Char, startsList pat l = true ↔ ∃ t, l = pat ++ t := by
  induction pat with
  | nil => intro l; simp [startsList]
  | cons p ps ih =>
    intro l
    cases l with
    | nil => simp [startsList]
    | cons c cs =>
      rw [startsList, Bool.and_eq_true, beq_iff_eq, ih]
      constructor
      · rintro ⟨rfl, t, rfl⟩
        exact ⟨t, rfl⟩
      · rintro ⟨t, ht⟩
        obtain ⟨rfl, rfl⟩ := List.cons.injEq .. ▸ ht
        exact ⟨rfl, t, rfl⟩

/-- `containsList` recognises exactly the lists containing `pat` as a
contiguous substring: the model of Python's `in` is the textbook one. -/
theorem containsList_iff (pat : List Char) :
    ∀ l : List Char, containsList pat l = true ↔ ∃ u v, l = u ++ pat ++ v := by
  intro l
  induction l with
  | nil =>
    rw [containsList, startsList_iff]
    constructor
    · rintro ⟨t, ht⟩
      exact ⟨[], t, ht⟩
    · rintro ⟨u, v, huv⟩
      obtain ⟨hup, hv⟩ := List.append_eq_nil.mp huv.symm
      obtain ⟨hu, hp⟩ := List.append_eq_nil.mp hup
      exact ⟨[], by simp [hp]⟩
  | cons c cs ih =>
    rw [containsList, Bool.or_eq_true, startsList_iff, ih]
    constructor
    · rintro (⟨t, ht⟩ | ⟨u, v, huv⟩)
      · exact ⟨[], t, by simpa using ht⟩
      · exact ⟨c :: u, v, by simp [huv]⟩
    · rintro ⟨u, v, huv⟩
      cases u with
      | nil => exact Or.inl ⟨v, by simpa using huv⟩
      | cons x xs =>
        obtain ⟨rfl, h2⟩ := List.cons.injEq .. ▸ huv
        exact Or.inr ⟨xs, v, by simpa using h2⟩

/-- The embedding of Python's `pat in s`, characterised on the character
lists of the two strings. -/
theorem hasSubstr_iff (s pat : String) :
    hasSubstr s pat = true ↔ ∃ u v, s.data = u ++ pat.data ++ v :=
  containsList_iff pat.data s.data

/-! ### Claim theorems -/

/-- C1 (code bug): with the gender table loaded, the age table absent and
the trench-coat keyword selected, the demographics view of Tab 4 raises
an `AttributeError` from `special_data['trench_age'].groupby(...)` on
`None` instead of rendering a placeholder; the symmetric case (gender
absent) is tolerated with the "not ready" placeholder, as the spec
describes. -/
theorem claim1_demographics_age_crash :
    demographicsTab ({ trench_gender := some 0 } : SpecialData Nat) ["트렌치코트"] =
        Except.error PyError.noneHasNoGroupby ∧
    demographicsTab ({ trench_age := some 0 } : SpecialData Nat) ["트렌치코트"] =
        Except.ok [ViewItem.infoMsg "인구통계 데이터가 준비되지 않았습니다."] :=
  ⟨rfl, rfl⟩

/-- C9: on the empty document sequence the ranker returns an empty result
and raises nothing, for every `top_n`. -/
theorem claim9_empty_input :
    ∀ top_n : Nat, extract_keywords_tfidf [] top_n = Except.ok [] := fun _ => rfl

/-- C2 (counterexample): the non-empty corpus `["a"]` has zero distinct
tokenizable terms (the default tokenizer discards single-character
tokens), and the ranker raises the empty-vocabulary `ValueError` instead
of returning a degenerate result without error. -/
theorem claim2_counterexample :
    (["a"] : List String) ≠ [] ∧
    extract_keywords_tfidf ["a"] 20 = Except.error RankError.emptyVocabulary :=
  ⟨by decide, rfl⟩

/-- C2 (amended): a non-empty corpus with exactly one distinct term in
the fitted vocabulary yields a length-`min top_n 1` result without
raising; with zero such terms the vectorizer raises instead (see the
counterexample). -/
theorem claim2_single_term (texts : List String) (top_n : Nat)
    (h1 : texts ≠ []) (h2 : (featureNames texts).length = 1) :
    ∃ r, extract_keywords_tfidf texts top_n = Except.ok r ∧ r.length = min top_n 1 := by
  obtain ⟨t, ht⟩ := List.length_eq_one.mp h2
  refine ⟨(List.insertionSort scoreGE
    ((featureNames texts).map (fun u => (u, corpusScore texts u)))).take top_n, ?_, ?_⟩
  · unfold extract_keywords_tfidf
    rw [if_neg h1, if_neg (by rw [ht]; exact List.cons_ne_nil t [])]
  · rw [List.length_take, List.length_insertionSort, List.length_map, ht, List.length_singleton]

theorem claim2_witness :
    (["hello hello"] : List String) ≠ [] ∧ (featureNames ["hello hello"]).length = 1 ∧
    ∃ r, extract_keywords_tfidf ["hello hello"] 20 = Except.ok r ∧ r.length = min 20 1 :=
  ⟨by decide, by decide, claim2_single_term ["hello hello"] 20 (by decide) (by decide)⟩

/-- C3 (counterexample): `rank(["a b b", "b c c c"], top_n=2)` does not
return 2 pairs; every token has a single character, so the fitted
vocabulary is empty and `fit_transform` raises. -/
theorem claim3_counterexample :
    extract_keywords_tfidf ["a b b", "b c c c"] 2 = Except.error RankError.emptyVocabulary :=
  rfl

/-- C3 (amended): the documents of the claim tokenize to nothing (the
default token pattern keeps only tokens of at least two word characters),
so the call raises the empty-vocabulary error; on the two-character
analogue `["aa bb bb", "bb cc cc cc"]` the ranker does return exactly 2
(term, score) pairs sorted descending (equal scores keeping vocabulary
order, the sort being stable). -/
theorem claim3_two_char_tokens :
    pyTokens "a b b" = [] ∧ pyTokens "b c c c" = [] ∧
    ∃ r : List (String × ℝ),
      extract_keywords_tfidf ["aa bb bb", "bb cc cc cc"] 2 = Except.ok r ∧
      r.length = 2 ∧ r.Pairwise scoreGE := by
  refine ⟨by decide, by decide,
    (List.insertionSort scoreGE ((featureNames ["aa bb bb", "bb cc cc cc"]).map
      (fun t => (t, corpusScore ["aa bb bb", "bb cc cc cc"] t)))).take 2, rfl, ?_, ?_⟩
  · rw [List.length_take, List.length_insertionSort, List.length_map,
      (by decide : featureNames ["aa bb bb", "bb cc cc cc"] = ["aa", "bb", "cc"])]
    rfl
  · exact List.Pairwise.sublist (List.take_sublist 2 _)
      (List.sorted_insertionSort scoreGE _)

/-- C4 (counterexample): the claim quantifies over every non-empty
document sequence, but on `["x"]` the ranker returns no (term, score)
pairs at all: the vocabulary fitted from the single one-character token
is empty and `fit_transform` raises. -/
theorem claim4_counterexample :
    (["x"] : List String) ≠ [] ∧
    extract_keywords_tfidf ["x"] 20 = Except.error RankError.emptyVocabulary :=
  ⟨by decide, rfl⟩

/-- C4 (amended): for every non-empty corpus whose fitted (1000-capped)
vocabulary is non-empty, the ranker returns the first `top_n` entries of
a list that pairs every vocabulary term with the sum over all documents
of its (L2-row-normalised) TF-IDF weight, is a permutation of those
pairs, is sorted descending by score, and keeps tied pairs in vocabulary
iteration order (stability); an empty vocabulary raises instead (see the
counterexample). -/
theorem claim4_ranking_characterisation (texts : List String) (top_n : Nat)
    (h1 : texts ≠ []) (h2 : featureNames texts ≠ []) :
    ∃ ranking : List (String × ℝ),
      extract_keywords_tfidf texts top_n = Except.ok (ranking.take top_n) ∧
      ranking.Perm ((featureNames texts).map
        (fun t => (t, (texts.map (fun d => tfidfWeight texts d t)).sum))) ∧
      ranking.Pairwise scoreGE ∧
      (∀ a b : String × ℝ, a.2 = b.2 →
        List.Sublist [a, b] ((featureNames texts).map (fun t => (t, corpusScore texts t))) →
        List.Sublist [a, b] ranking) := by
  refine ⟨List.insertionSort scoreGE
    ((featureNames texts).map (fun t => (t, corpusScore texts t))), ?_, ?_, ?_, ?_⟩
  · unfold extract_keywords_tfidf
    rw [if_neg h1, if_neg h2]
  · exact List.perm_insertionSort scoreGE _
  · exact List.sorted_insertionSort scoreGE _
  · intro a b hab hsub
    exact List.pair_sublist_insertionSort (le_of_eq hab.symm) hsub

theorem claim4_witness :
    (["hello world", "hello there"] : List String) ≠ [] ∧
    featureNames ["hello world", "hello there"] ≠ [] ∧
    ∃ ranking : List (String × ℝ),
      extract_keywords_tfidf ["hello world", "hello there"] 20 =
        Except.ok (ranking.take 20) ∧
      ranking.Perm ((featureNames ["hello world", "hello there"]).map
        (fun t => (t, ((["hello world", "hello there"] : List String).map
          (fun d => tfidfWeight ["hello world", "hello there"] d t)).sum))) ∧
      ranking.Pairwise scoreGE ∧
      (∀ a b : String × ℝ, a.2 = b.2 →
        List.Sublist [a, b] ((featureNames ["hello world", "hello there"]).map
          (fun t => (t, corpusScore ["hello world", "hello there"] t))) →
        List.Sublist [a, b] ranking) :=
  ⟨by decide, by decide,
    claim4_ranking_characterisation ["hello world", "hello there"] 20 (by decide) (by decide)⟩

/-- C5: generic classification.  The keyword is the first
underscore-delimited token of the filename (stated via `takeWhile`, and
holding for every name); the category is the first matching marker of the
`if`/`elif` priority chain trend > shopping > blog; the three concrete
filenames of the spec classify as stated and match no special marker; and
on a non-special classified name the loop inserts the table exactly at
`(keyword, category)`. -/
theorem claim5_generic_classification :
    (keywordOf "trenchcoat_쇼핑트랜드_x.csv" = "trenchcoat" ∧
      classifyCategory "trenchcoat_쇼핑트랜드_x.csv" = some Category.trend ∧
      isSpecialName "trenchcoat_쇼핑트랜드_x.csv" = false) ∧
    (keywordOf "trenchcoat_네이버쇼핑_x.csv" = "trenchcoat" ∧
      classifyCategory "trenchcoat_네이버쇼핑_x.csv" = some Category.shopping ∧
      isSpecialName "trenchcoat_네이버쇼핑_x.csv" = false) ∧
    (keywordOf "trenchcoat_블로그게시물_x.csv" = "trenchcoat" ∧
      classifyCategory "trenchcoat_블로그게시물_x.csv" = some Category.blog ∧
      isSpecialName "trenchcoat_블로그게시물_x.csv" = false) ∧
    (∀ name : String, keywordOf name = (name.data.takeWhile (fun c => c != '_')).asString) ∧
    (∀ name : String, hasSubstr name "쇼핑트랜드" = true →
      classifyCategory name = some Category.trend) ∧
    (∀ name : String, hasSubstr name "쇼핑트랜드" = false →
      hasSubstr name "네이버쇼핑" = true → classifyCategory name = some Category.shopping) ∧
    (∀ name : String, hasSubstr name "쇼핑트랜드" = false →
      hasSubstr name "네이버쇼핑" = false → hasSubstr name "블로그게시물" = true →
      classifyCategory name = some Category.blog) ∧
    (∀ (α : Type) (st : LoadState α) (name : String) (df : α) (c : Category),
      isSpecialName name = false → classifyCategory name = some c →
      processFile st name df =
        { st with main_data := insertDtype st.main_data (keywordOf name) c df }) := by
  refine ⟨by decide, by decide, by decide, ?_, ?_, ?_, ?_, ?_⟩
  · intro name
    rw [keywordOf, headD_pySplit]
  · intro name h
    simp [classifyCategory, h]
  · intro name h1 h2
    simp [classifyCategory, h1, h2]
  · intro name h1 h2 h3
    simp [classifyCategory, h1, h2, h3]
  · intro α st name df c hsp hc
    simp only [isSpecialName, Bool.or_eq_false_iff] at hsp
    obtain ⟨⟨⟨hs1, hs2⟩, hs3⟩, hs4⟩ := hsp
    simp [processFile, hs1, hs2, hs3, hs4, hc]

theorem claim5_witness :
    classifyCategory "kw_쇼핑트랜드_네이버쇼핑.csv" = some Category.trend ∧
    classifyCategory "kw_네이버쇼핑.csv" = some Category.shopping ∧
    classifyCategory "kw_블로그게시물.csv" = some Category.blog ∧
    processFile ({} : LoadState Nat) "kw_네이버쇼핑.csv" 7 =
      { ({} : LoadState Nat) with
        main_data := insertDtype ({} : LoadState Nat).main_data
          (keywordOf "kw_네이버쇼핑.csv") Category.shopping 7 } :=
  ⟨claim5_generic_classification.2.2.2.2.1 _ (by decide),
   claim5_generic_classification.2.2.2.2.2.1 _ (by decide) (by decide),
   claim5_generic_classification.2.2.2.2.2.2.1 _ (by decide) (by decide) (by decide),
   claim5_generic_classification.2.2.2.2.2.2.2 Nat {} _ 7 Category.shopping
     (by decide) (by decide)⟩

/-- C6 (counterexample): `foo.csv` matches none of the seven markers, yet
the load does not drop it silently when it is malformed: `pd.read_csv`
runs before classification and its failure aborts the load. -/
theorem claim6_counterexample :
    isSpecialName "foo.csv" = false ∧ classifyCategory "foo.csv" = none ∧
    load_all_data [("foo.csv", (Except.error "bad file" : Except String Nat))] =
      Except.error "bad file" :=
  ⟨by decide, by decide, rfl⟩

/-- C6 (amended): every *parseable* file matching none of the three
generic and none of the four special markers is silently dropped: the
loop body leaves the state unchanged, so its contents appear in neither
map and no error is raised by classification. -/
theorem claim6_unmatched_dropped (α : Type) (st : LoadState α) (name : String) (df : α)
    (h1 : isSpecialName name = false) (h2 : classifyCategory name = none) :
    processFile st name df = st := by
  simp only [isSpecialName, Bool.or_eq_false_iff] at h1
  obtain ⟨⟨⟨hs1, hs2⟩, hs3⟩, hs4⟩ := h1
  simp [processFile, hs1, hs2, hs3, hs4, h2]

theorem claim6_witness :
    isSpecialName "notes_기타.csv" = false ∧ classifyCategory "notes_기타.csv" = none ∧
    processFile ({} : LoadState Nat) "notes_기타.csv" 3 = {} :=
  ⟨by decide, by decide, claim6_unmatched_dropped Nat {} "notes_기타.csv" 3
    (by decide) (by decide)⟩

/-- C7: a file matching a special marker is stored only in its special
slot (the first matching marker of the chain, each ending with
`continue`) and the generic keyword map is left untouched. -/
theorem claim7_special_exclusive (α : Type) (st : LoadState α) (name : String) (df : α) :
    (isSpecialName name = true → (processFile st name df).main_data = st.main_data) ∧
    (hasSubstr name seasonalMark = true →
      (processFile st name df).special_data.seasonal_trend = some df) ∧
    (hasSubstr name seasonalMark = false → hasSubstr name attrMark = true →
      (processFile st name df).special_data.trench_attributes = some df) ∧
    (hasSubstr name seasonalMark = false → hasSubstr name attrMark = false →
      hasSubstr name genderMark = true →
      (processFile st name df).special_data.trench_gender = some df) ∧
    (hasSubstr name seasonalMark = false → hasSubstr name attrMark = false →
      hasSubstr name genderMark = false → hasSubstr name ageMark = true →
      (processFile st name df).special_data.trench_age = some df) := by
  refine ⟨?_, ?_, ?_, ?_, ?_⟩
  · intro h
    by_cases h1 : hasSubstr name seasonalMark
    · simp [processFile, h1]
    · by_cases h2 : hasSubstr name attrMark
      · simp [processFile, h1, h2]
      · by_cases h3 : hasSubstr name genderMark
        · simp [processFile, h1, h2, h3]
        · by_cases h4 : hasSubstr name ageMark
          · simp [processFile, h1, h2, h3, h4]
          · rw [isSpecialName] at h
            simp [h1, h2, h3, h4] at h
  · intro h1
    simp [processFile, h1]
  · intro h1 h2
    simp [processFile, h1, h2]
  · intro h1 h2 h3
    simp [processFile, h1, h2, h3]
  · intro h1 h2 h3 h4
    simp [processFile, h1, h2, h3, h4]

theorem claim7_witness :
    (processFile ({} : LoadState Nat) "절기별_패션트랜드_2025.csv" 5).main_data =
      ({} : LoadState Nat).main_data ∧
    (processFile ({} : LoadState Nat) "절기별_패션트랜드_2025.csv" 5).special_data.seasonal_trend =
      some 5 ∧
    (processFile ({} : LoadState Nat) "트렌치코트_성별_data.csv" 9).special_data.trench_gender =
      some 9 :=
  ⟨(claim7_special_exclusive Nat {} _ 5).1 (by decide),
   (claim7_special_exclusive Nat {} _ 5).2.1 (by decide),
   (claim7_special_exclusive Nat {} _ 9).2.2.2.1 (by decide) (by decide) (by decide)⟩

theorem loadLoop_error_of_mem (α ε : Type) (files : List (String × Except ε α)) :
    ∀ st : LoadState α, (∃ p ∈ files, ∃ e, p.2 = Except.error e) →
      ∃ e, loadLoop st files = Except.error e := by
  induction files with
  | nil =>
    rintro st ⟨p, hp, e, he⟩
    exact absurd hp (List.not_mem_nil p)
  | cons f rest ih =>
    rintro st ⟨p, hp, e, he⟩
    obtain ⟨name, res⟩ := f
    cases res with
    | error e' => exact ⟨e', rfl⟩
    | ok df =>
      rcases List.mem_cons.mp hp with rfl | hmem
      · simp at he
      · exact ih (processFile st name df) ⟨p, hmem, e, he⟩

/-- C8: if any discovered file fails to parse, the whole load aborts with
that error and no keyword/special maps are returned. -/
theorem claim8_malformed_aborts (α ε : Type) (files : List (String × Except ε α))
    (h : ∃ p ∈ files, ∃ e, p.2 = Except.error e) :
    ∃ e, load_all_data files = Except.error e :=
  loadLoop_error_of_mem α ε files {} h

theorem claim8_witness :
    (∃ p ∈ [("오메가3_쇼핑트랜드.csv", (Except.ok 1 : Except String Nat)),
        ("bad_블로그게시물.csv", (Except.error "EmptyDataError" : Except String Nat))],
      ∃ e, p.2 = Except.error e) ∧
    ∃ e, load_all_data [("오메가3_쇼핑트랜드.csv", (Except.ok 1 : Except String Nat)),
        ("bad_블로그게시물.csv", (Except.error "EmptyDataError" : Except String Nat))] =
      Except.error e :=
  ⟨⟨_, List.mem_cons_of_mem _ (List.mem_cons_self _ _), "EmptyDataError", rfl⟩,
   claim8_malformed_aborts Nat String _
     ⟨_, List.mem_cons_of_mem _ (List.mem_cons_self _ _), "EmptyDataError", rfl⟩⟩

theorem kwNonempty_setDtype (α : Type) (d : KeywordData α) (c : Category) (df : α) :
    kwNonempty (setDtype d c df) := by
  cases c <;> simp [setDtype, kwNonempty]

theorem kwNonempty_insertDtype (α : Type) (m : List (String × KeywordData α)) (k : String)
    (c : Category) (df : α) (hm : ∀ p ∈ m, kwNonempty p.2) :
    ∀ p ∈ insertDtype m k c df, kwNonempty p.2 := by
  induction m with
  | nil =>
    intro p hp
    rw [List.mem_singleton.mp hp]
    exact kwNonempty_setDtype α {} c df
  | cons q rest ih =>
    intro p hp
    obtain ⟨k', v⟩ := q
    by_cases hk : k' = k
    · rw [insertDtype, if_pos hk] at hp
      rcases List.mem_cons.mp hp with rfl | hmem
      · exact kwNonempty_setDtype α v c df
      · exact hm p (List.mem_cons_of_mem _ hmem)
    · rw [insertDtype, if_neg hk] at hp
      rcases List.mem_cons.mp hp with rfl | hmem
      · exact hm _ (List.mem_cons_self _ _)
      · exact ih (fun q hq => hm q (List.mem_cons_of_mem _ hq)) p hmem

theorem kwNonempty_processFile (α : Type) (st : LoadState α) (name : String) (df : α)
    (h : ∀ p ∈ st.main_data, kwNonempty p.2) :
    ∀ p ∈ (processFile st name df).main_data, kwNonempty p.2 := by
  by_cases h1 : hasSubstr name seasonalMark
  · simpa [processFile, h1] using h
  · by_cases h2 : hasSubstr name attrMark
    · simpa [processFile, h1, h2] using h
    · by_cases h3 : hasSubstr name genderMark
      · simpa [processFile, h1, h2, h3] using h
      · by_cases h4 : hasSubstr name ageMark
        · simpa [processFile, h1, h2, h3, h4] using h
        · cases hc : classifyCategory name with
          | none => simpa [processFile, h1, h2, h3, h4, hc] using h
          | some c =>
            have := kwNonempty_insertDtype α st.main_data (keywordOf name) c df h
            simpa [processFile, h1, h2, h3, h4, hc] using this

theorem kwNonempty_loadLoop (α ε : Type) (files : List (String × Except ε α)) :
    ∀ st st' : LoadState α, (∀ p ∈ st.main_data, kwNonempty p.2) →
      loadLoop st files = Except.ok st' → ∀ p ∈ st'.main_data, kwNonempty p.2 := by
  induction files with
  | nil =>
    intro st st' h heq
    rw [loadLoop] at heq
    cases heq
    exact h
  | cons f rest ih =>
    intro st st' h heq
    obtain ⟨name, res⟩ := f
    cases res with
    | error e => exact absurd heq (by rw [loadLoop]; simp)
    | ok df =>
      rw [loadLoop] at heq
      exact ih (processFile st name df) st' (kwNonempty_processFile α st name df h) heq

/-- C10: every keyword key of the returned keyword map has at least one
of the three sub-tables populated; a key is only ever created by the
guarded insertion which immediately sets one sub-table. -/
theorem claim10_no_empty_keyword (α ε : Type) (files : List (String × Except ε α))
    (st : LoadState α) (h : load_all_data files = Except.ok st) :
    ∀ p ∈ st.main_data, kwNonempty p.2 :=
  kwNonempty_loadLoop α ε files {} st (by simp) h

theorem claim10_witness :
    load_all_data [("omega_쇼핑트랜드.csv", (Except.ok 1 : Except String Nat))] =
      Except.ok ({ main_data := [("omega", { trend := some 1 })] } : LoadState Nat) ∧
    kwNonempty ({ trend := some 1 } : KeywordData Nat) :=
  ⟨rfl, claim10_no_empty_keyword Nat String
    [("omega_쇼핑트랜드.csv", (Except.ok 1 : Except String Nat))]
    { main_data := [("omega", { trend := some 1 })] } rfl
    ("omega", { trend := some 1 }) (List.mem_singleton.mpr rfl)⟩

end StDash
